import Mathlib

/-!
Shallow embedding of the similarity-orchestration layer of the
visual-anomaly-detection service (Go backend, `api-go/internal/handlers/handlers.go`
and `api-go/internal/qdrant/client.go`).

Modelling conventions:
* Go `interface{}` values that hold point identifiers are modelled by `GoVal`
  (a JSON-decoded dynamic value: number or string).  A point upserted by
  `IngestImage` carries `ID: time.Now().UnixNano()` (a number), while
  `qdrant.SearchResult.ID` is declared `string`; Go equality between a `string`
  and an `interface{}` holds only when the dynamic type is `string` and the
  contents agree, which `goEqStr` mirrors.
* `float32` similarity scores are modelled by `ℚ`; the score values the claims
  touch (0, 0.85, 0.9, 0.93, 0.97, 1) are exactly representable in `float32`
  and the only arithmetic performed on them is `1 - s`.
* The external Qdrant index, object store, embedding service and Postgres are
  collaborators outside `src/api-go`; each call to them is a parameter
  (an oracle function or a boolean outcome) of the embedded handler.
-/

/-- Dynamic (JSON-decoded) Go `interface\x7b\x7d` value used for point identifiers:
either a number (numeric Qdrant point id, e.g. `time.Now().UnixNano()`) or a
string (business id / string-typed search-result id). -/
inductive GoVal where
  | num (n : Int)
  | str (s : String)
deriving DecidableEq, Repr

/-- Go equality `s == v` between a `string` `s` and an `interface\x7b\x7d` value `v`:
true only when the dynamic type of `v` is `string` and the contents agree.
This is the comparison performed by `result.ID != point.ID` (handlers.go:651)
and `nb.ID == seed.id` (handlers.go:767). -/
def goEqStr (v : GoVal) (s : String) : Bool :=
  match v with
  | .num _ => false
  | .str t => t == s

/-- One search hit as decoded into `qdrant.SearchResult` (client.go:43-48):
the id field is declared `string`, the score is a float. -/
structure SearchResult where
  id : String
  score : ℚ
deriving DecidableEq, Repr

/-- A stored point as decoded into `qdrant.Point` (client.go:27-31): dynamic id,
optional named vector `clip_global`, loosely-typed payload map. -/
structure Point where
  id : GoVal
  vector : Option (List ℚ)
  payload : List (String × GoVal)
deriving DecidableEq, Repr

/-- Lookup in a Go `map[string]interface\x7b\x7d` payload. -/
def lookupPayload (p : List (String × GoVal)) (k : String) : Option GoVal :=
  (p.find? (fun kv => kv.1 == k)).map (fun kv => kv.2)

/-- Go type assertion `v, ok := x.(string)` on an optional payload entry. -/
def asGoStr : Option GoVal → Option String
  | some (.str s) => some s
  | _ => none

/-! ## GetAnomalies (handlers.go:611-682) -/

/-- The `nearest neighbor that is not self` selection loop of `GetAnomalies`
(handlers.go:648-655): the first search result `r` with `r.ID != point.ID`.
Because `r.ID` is a `string` and `point.ID` an `interface\x7b\x7d`, the Go
comparison is `goEqStr`. -/
def nearestOther (pointId : GoVal) (results : List SearchResult) : Option SearchResult :=
  results.find? (fun r => !(goEqStr pointId r.id))

/-- The chosen neighbor similarity of `GetAnomalies` (handlers.go:649-655):
the selection loop seeded with `var nearestScore float32 = 1.0`, so the value
defaults to 1 when no result passes the id comparison. -/
def nearestScore (pointId : GoVal) (results : List SearchResult) : ℚ :=
  match nearestOther pointId results with
  | some r => r.score
  | none => 1

/-- One output row of `GetAnomalies` (handlers.go:666-671); presentation-only
fields (payload echo, preview url) are omitted. -/
structure AnomalyEntry where
  image_id : GoVal
  anomaly_score : ℚ
deriving DecidableEq, Repr

/-- The `GetAnomalies` handler body (handlers.go:611-682) over the scrolled
candidate set.  `search` is the Qdrant top-2 search oracle for a point's
`clip_global` vector under the tenant filter; `none` models a search error
(the code then does `continue`).  Points without a `clip_global` vector are
skipped.  The Go code returns the rows in scan order: the sorting step is
only a comment (`For simplicity, we'll return unsorted for now`,
handlers.go:675-676). -/
def GetAnomalies (search : Point → Option (List SearchResult)) (points : List Point) :
    List AnomalyEntry :=
  points.filterMap (fun p =>
    match p.vector with
    | none => none
    | some _ =>
      match search p with
      | none => none
      | some results => some ⟨p.id, 1 - nearestScore p.id results⟩)

/-- Descending-sortedness check for a list of scores (the order the spec
requires of `rank_anomalies`). -/
def sortedDescB : List ℚ → Bool
  | [] => true
  | [_] => true
  | a :: b :: t => (decide (b ≤ a)) && sortedDescB (b :: t)

/-! ## Deduplicate (handlers.go:684-788) -/

/-- The per-point record built by `Deduplicate` (handlers.go:713-735): the
dynamic point id and the `phash` payload string (empty when absent);
`key`/`url` are presentation-only and omitted. -/
structure Item where
  id : GoVal
  phash : String
deriving DecidableEq, Repr

/-- Coarse bucket key: the first 8 bytes of the phash (handlers.go:740-743). -/
def bucketKey (s : String) : String :=
  if s.length > 8 then s.take 8 else s

/-- Append `it` to the bucket keyed `k`, creating the bucket at the end on
first occurrence.  (Go iterates `buckets` — a `map` — in unspecified order;
the embedding fixes first-insertion order.  Every theorem below about
`Deduplicate` uses a candidate set that falls into a single bucket, so no
conclusion depends on this choice.) -/
def insertBucket (bs : List (String × List Item)) (k : String) (it : Item) :
    List (String × List Item) :=
  match bs with
  | [] => [(k, [it])]
  | (k1, items) :: rest =>
    if k1 == k then (k1, items ++ [it]) :: rest
    else (k1, items) :: insertBucket rest k it

/-- Group the candidate set by phash-prefix buckets (handlers.go:738-745). -/
def bucketize (items : List Item) : List (String × List Item) :=
  items.foldl (fun bs it => insertBucket bs (bucketKey it.phash) it) []

/-- One emitted cluster member (handlers.go:757-760 and 777): the seed is
recorded under its dynamic point id with no score; each neighbor is recorded
under its string-typed search-result id with its score. -/
structure Member where
  image_id : GoVal
  score : Option ℚ
deriving DecidableEq, Repr

/-- The body of the seed loop of `Deduplicate` (handlers.go:751-784) for one
bucket member, threading the `visited` set (a Go `map[interface\x7b\x7d]bool`:
seeds are marked under their dynamic ids, neighbors under `GoVal.str` of their
string ids) and the accumulated cluster list.  `searchFn` is the
`SearchByPoint` oracle (neighbors of the seed within the tenant filter, at or
above the score threshold, limit 10); `none` models a search error (the Go
code then keeps the singleton cluster, which is not emitted).  Note the Go
code appends every neighbor with `nb.ID == seed.id` false — it never consults
`visited` for neighbors. -/
def dedupStep (searchFn : GoVal → Option (List SearchResult))
    (st : List GoVal × List (List Member)) (it : Item) :
    List GoVal × List (List Member) :=
  let visited := st.1
  let clusters := st.2
  if it.id ∈ visited then st
  else
    let seedCluster : List Member := [⟨it.id, none⟩]
    let expanded : List GoVal × List Member :=
      match searchFn it.id with
      | none => (it.id :: visited, seedCluster)
      | some nbs =>
        nbs.foldl
          (fun acc nb =>
            if goEqStr it.id nb.id then acc
            else (GoVal.str nb.id :: acc.1, acc.2 ++ [⟨GoVal.str nb.id, some nb.score⟩]))
          (it.id :: visited, seedCluster)
    if expanded.2.length > 1 then (expanded.1, clusters ++ [expanded.2])
    else (expanded.1, clusters)

/-- The `Deduplicate` handler body (handlers.go:684-788) over the scrolled
candidate set: bucket by phash prefix, then greedily expand each unvisited
seed and emit clusters with more than one entry. -/
def Deduplicate (searchFn : GoVal → Option (List SearchResult)) (points : List Item) :
    List (List Member) :=
  (bucketize points).foldl
    (fun st bucket => bucket.2.foldl (dedupStep searchFn) st)
    (([] : List GoVal), ([] : List (List Member))) |>.2

/-- The ids occurring in one emitted cluster. -/
def memberIds (c : List Member) : List GoVal :=
  c.map (fun m => m.image_id)

/-! ## GetImage (handlers.go:549-577) and the SearchSimilar id-sourced query
     (handlers.go:357-428) -/

/-- Outcome of the `GetImage` handler. -/
inductive GetImageOutcome where
  | notFound
  | forbidden
  | ok (image_id : String) (payload : List (String × GoVal))
deriving DecidableEq, Repr

/-- The `GetImage` handler body (handlers.go:549-577).  `getPoint` is the
Qdrant `GetPoint` oracle — a lookup by raw point id with no tenant filter
(client.go:231-254).  The ownership check (handlers.go:560-563) fires only
when the payload holds a string-typed `owner_user_id` different from the
caller. -/
def GetImage (getPoint : String → Option Point) (imageID userID : String) :
    GetImageOutcome :=
  match getPoint imageID with
  | none => .notFound
  | some p =>
    match asGoStr (lookupPayload p.payload "owner_user_id") with
    | some owner => if owner != userID then .forbidden else .ok imageID p.payload
    | none => .ok imageID p.payload

/-- Limit normalization of the JSON `SearchSimilar` branch (handlers.go:375-381):
`0` (also the decoded value of an omitted field) becomes 10, values above 100
are capped at 100, everything else — negatives included — passes through. -/
def normalizeLimit (l : Int) : Int :=
  let l1 := if l == 0 then 10 else l
  if l1 > 100 then 100 else l1

/-- Go map assignment `m[k] = v` on a payload-style filter map. -/
def setKey (m : List (String × GoVal)) (k : String) (v : GoVal) :
    List (String × GoVal) :=
  if m.any (fun kv => kv.1 == k) then
    m.map (fun kv => if kv.1 == k then (k, v) else kv)
  else m ++ [(k, v)]

/-- The search request `SearchSimilar` issues for a JSON body carrying
`image_id` (handlers.go:357-428): query vector, effective filter, effective
limit. -/
structure SearchInvocation where
  vector : List ℚ
  filter : List (String × GoVal)
  limit : Int
deriving DecidableEq, Repr

/-- Vector sourcing and query assembly of the JSON `SearchSimilar` branch when
`image_id` is supplied (handlers.go:384-422).  The point is fetched by raw id
via `GetPoint` with no ownership check; its `clip_global` vector (or the nil
vector when the slot is absent, handlers.go:392-394) becomes the query vector;
the filter is the request filter with `owner_user_id` overwritten to the
caller (handlers.go:407-411).  `none` models the 404 return when the point
does not exist. -/
def SearchSimilarByImageId (getPoint : String → Option Point) (userID imageID : String)
    (reqFilter : List (String × GoVal)) (reqLimit : Int) : Option SearchInvocation :=
  match getPoint imageID with
  | none => none
  | some p =>
    let embedding := match p.vector with
      | some v => v
      | none => []
    some { vector := embedding
           filter := setKey reqFilter "owner_user_id" (.str userID)
           limit := normalizeLimit reqLimit }

/-! ## IngestImage (handlers.go:213-323) -/

/-- HTTP outcome of `IngestImage`. -/
inductive IngestOutcome where
  | notFound (msg : String)
  | badRequest (msg : String)
  | serverError (msg : String)
  | ok (image_id sha256 : String) (width height : Int) (format : String)
deriving DecidableEq, Repr

/-- The external collaborators `IngestImage` calls, as oracles:
`download` is the object-store fetch of the requested key; `decode` is
`image.Decode` (width, height, format) on the raw bytes; `sha` is
`storage.ComputeSHA256`; `phash` is the perceptual hash rendered by
`hash.ToString()`; `embed` is the embedding-service call; `upsertOk` is the
outcome of the Qdrant upsert; `auditOk` is the outcome of the Postgres audit
insert; `freshImageId` is the `ulid.Make().String()` business id and
`freshPointId` the `time.Now().UnixNano()` point id generated during this
request.  Bytes are modelled as `List Nat`. -/
structure IngestEnv where
  download : Option (List Nat)
  decode : List Nat → Option (Int × Int × String)
  sha : List Nat → String
  phash : List Nat → String
  embed : List Nat → Option (List ℚ)
  upsertOk : Bool
  auditOk : Bool
  freshImageId : String
  freshPointId : Int

/-- The point `IngestImage` builds for the Qdrant upsert (handlers.go:267-294):
numeric point id, `clip_global` vector, payload carrying the business id,
hashes, dimensions and the owner. -/
def ingestPoint (env : IngestEnv) (userID bucket key : String) (data : List Nat)
    (whf : Int × Int × String) (emb : List ℚ) : Point :=
  { id := .num env.freshPointId
    vector := some emb
    payload :=
      [("image_id", .str env.freshImageId),
       ("bucket", .str bucket),
       ("key", .str key),
       ("sha256", .str (env.sha data)),
       ("phash", .str (env.phash data)),
       ("width", .num whf.1),
       ("height", .num whf.2.1),
       ("format", .str whf.2.2),
       ("owner_user_id", .str userID)] }

/-- The `IngestImage` handler body (handlers.go:213-323), returning the new
index state together with the HTTP outcome.  The index is the list of stored
points; the upsert of a freshly generated id appends.  Failure of the audit
insert (handlers.go:306-314) is only logged: `env.auditOk` does not influence
either component of the result. -/
def IngestImage (env : IngestEnv) (userID bucket key : String)
    (index : List Point) : List Point × IngestOutcome :=
  match env.download with
  | none => (index, .notFound "image not found")
  | some data =>
    match env.decode data with
    | none => (index, .badRequest "invalid image format")
    | some whf =>
      match env.embed data with
      | none => (index, .serverError "failed to get embedding")
      | some emb =>
        let point := ingestPoint env userID bucket key data whf emb
        if env.upsertOk then
          (index ++ [point],
           .ok env.freshImageId (env.sha data) whf.1 whf.2.1 whf.2.2)
        else (index, .serverError "failed to store in vector database")

/-! ## Concrete instances used by the theorems below -/

/-- A fully successful ingest environment for one-byte image `[7]`:
sha `h`, phash `p`, dimensions 1×1 png, embedding `[1]`, fresh ids
`img1` / point 1. -/
def envOk : IngestEnv :=
  { download := some [7]
    decode := fun _ => some (1, 1, "png")
    sha := fun _ => "h"
    phash := fun _ => "p"
    embed := fun _ => some [1]
    upsertOk := true
    auditOk := true
    freshImageId := "img1"
    freshPointId := 1 }

/-- The same request replayed: identical bytes and collaborators, but the
handler generates fresh identifiers (`ulid.Make()` / `time.Now().UnixNano()`
are fresh on every call). -/
def envOk2 : IngestEnv :=
  { envOk with freshImageId := "img2", freshPointId := 2 }

/-- An environment in which the embedding-service call fails after download
and decode succeeded. -/
def envEmbedFail : IngestEnv :=
  { envOk with embed := fun _ => none }

/-- An environment in which everything up to and including the Qdrant upsert
succeeds but the Postgres audit insert fails. -/
def envAuditFail : IngestEnv :=
  { envOk with auditOk := false }

/-- Top-2 search oracle of a single-asset tenant: the only hit is the queried
asset itself (cosine 1), rendered under its string-typed search-result id. -/
def searchSingle : Point → Option (List SearchResult) :=
  fun _ => some [⟨"1", 1⟩]

/-- Top-2 search oracle for a two-asset tenant whose scan order puts the
well-matched asset (neighbor similarity 0.9, anomaly 0.1) before the isolated
one (neighbor similarity 0.4, anomaly 0.6). -/
def searchTwo : Point → Option (List SearchResult) :=
  fun p => if p.id == .num 1 then some [⟨"2", 9/10⟩] else some [⟨"1", 2/5⟩]

/-- SearchByPoint oracle of the literal 5-asset dedup scenario
(spec §8): (1,2) a near-duplicate pair at cosine 0.97, (3,4) a pair at
cosine 0.93, asset 5 an unrelated outlier; every query also returns the
queried point itself at cosine 1, and only hits at or above the 0.85
threshold are returned. -/
def searchFive : GoVal → Option (List SearchResult) :=
  fun id =>
    if id == .num 1 then some [⟨"1", 1⟩, ⟨"2", 97/100⟩]
    else if id == .num 2 then some [⟨"2", 1⟩, ⟨"1", 97/100⟩]
    else if id == .num 3 then some [⟨"3", 1⟩, ⟨"4", 93/100⟩]
    else if id == .num 4 then some [⟨"4", 1⟩, ⟨"3", 93/100⟩]
    else some [⟨"5", 1⟩]

/-- The scrolled candidate set of the 5-asset scenario: all five share a
phash-bucket prefix, so bucket iteration order is immaterial. -/
def itemsFive : List Item :=
  [⟨.num 1, "ph"⟩, ⟨.num 2, "ph"⟩, ⟨.num 3, "ph"⟩, ⟨.num 4, "ph"⟩, ⟨.num 5, "ph"⟩]

/-- SearchByPoint oracle of a two-asset tenant holding one near-duplicate
pair: each asset returns itself (cosine 1) and the other (cosine 0.9). -/
def searchPair : GoVal → Option (List SearchResult) :=
  fun id =>
    if id == .num 1 then some [⟨"1", 1⟩, ⟨"2", 9/10⟩]
    else some [⟨"2", 1⟩, ⟨"1", 9/10⟩]

/-- The candidate set of that pair, in one phash bucket. -/
def itemsPair : List Item := [⟨.num 1, "ph"⟩, ⟨.num 2, "ph"⟩]

/-- A Qdrant `GetPoint` oracle holding a single point that belongs to tenant
`bob`: point 42 with vector `[1, 2]`. -/
def storeBob : String → Option Point :=
  fun id =>
    if id == "42" then some ⟨.num 7, some [1, 2], [("owner_user_id", .str "bob")]⟩
    else none

/-- A Qdrant `GetPoint` oracle holding a single point whose payload lacks the
`owner_user_id` field entirely. -/
def storeNoOwner : String → Option Point :=
  fun id =>
    if id == "7" then some ⟨.num 7, none, [("key", .str "k")]⟩
    else none

/-! ## Theorems -/

/-- C1.  The claim states that in anomaly scoring an asset's own identifier is
never selected as its nearest-other neighbor, under either identifier
representation.  The code violates it: a point upserted with numeric id 1 is
returned by the top-2 search under the string rendering of that same id, the
comparison `result.ID != point.ID` is satisfied because the dynamic types
differ, and the self hit (similarity 0.99) is selected and feeds
`anomaly_score = 1 - score`. -/
theorem C1_self_match_selected :
    goEqStr (GoVal.num 1) "1" = false ∧
    nearestOther (GoVal.num 1) [⟨"1", 99/100⟩, ⟨"2", 1/2⟩] = some ⟨"1", 99/100⟩ ∧
    GetAnomalies (fun _ => some [⟨"1", 99/100⟩, ⟨"2", 1/2⟩])
        [⟨.num 1, some [1], []⟩] = [⟨.num 1, 1/100⟩] := by
  refine ⟨rfl, rfl, ?_⟩
  simp [GetAnomalies, nearestScore, nearestOther, goEqStr]
  norm_num

/-- C2.  The claim states that every query path conjoins the tenant filter and
that no path uses or returns another tenant's asset data, including when the
query vector is sourced from a caller-supplied asset id or when a payload
lacks the owner field.  The code violates it twice: (1) `SearchSimilar` with
an `image_id` fetches the point by raw id with no ownership check, so tenant
`alice` obtains a search invocation whose query vector `[1, 2]` is the stored
vector of `bob`'s point 42; (2) `GetImage` returns a point whose payload has
no `owner_user_id` entry to any caller. -/
theorem C2_cross_tenant_access :
    asGoStr (lookupPayload [("owner_user_id", GoVal.str "bob")] "owner_user_id")
        = some "bob" ∧
    SearchSimilarByImageId storeBob "alice" "42" [] 0
        = some ⟨[1, 2], [("owner_user_id", .str "alice")], 10⟩ ∧
    GetImage storeNoOwner "7" "alice" = .ok "7" [("key", .str "k")] := by
  refine ⟨rfl, ?_, ?_⟩ <;> decide

/-- C3 counterexample.  The claim states that an asset with no qualifying
neighbor (here: a single-asset tenant, whose top-2 search returns only the
asset itself) gets anomaly score exactly 1.0.  Evaluating `GetAnomalies` on
that tenant yields score 0, and 0 is not 1. -/
theorem C3_counterexample :
    GetAnomalies searchSingle [⟨.num 1, some [1], []⟩] = [⟨.num 1, 0⟩] ∧
    (0 : ℚ) ≠ 1 := by
  refine ⟨?_, by norm_num⟩
  simp [GetAnomalies, nearestScore, nearestOther, goEqStr, searchSingle]

/-- C3 as amended.  When no search result survives the
`result.ID != point.ID` comparison (in particular when the search returns an
empty list), the neighbor similarity keeps its initial value 1.0 and the
asset's anomaly score is exactly 0.0, not 1.0. -/
theorem C3_no_qualifying_neighbor_score_zero
    (search : Point → Option (List SearchResult)) (p : Point) (v : List ℚ)
    (rs : List SearchResult) (hv : p.vector = some v) (hs : search p = some rs)
    (hno : nearestOther p.id rs = none) :
    GetAnomalies search [p] = [⟨p.id, 0⟩] := by
  simp [GetAnomalies, hv, hs, nearestScore, hno]

/-- Witness for the amended C3 at a concrete single-asset tenant whose search
call returns no results. -/
theorem C3_amended_witness :
    GetAnomalies (fun _ => some []) [⟨.num 1, some [1], []⟩] = [⟨.num 1, 0⟩] :=
  C3_no_qualifying_neighbor_score_zero (fun _ => some []) ⟨.num 1, some [1], []⟩
    [1] [] rfl rfl rfl

/-- C4.  The claim states that an asset with no other neighbor at or above the
threshold never appears in an emitted cluster, that every emitted cluster has
at least two distinct members, and that the literal 5-asset scenario yields
exactly two clusters of size 2 with the outlier absent.  The code violates
all three: a lone outlier's own search hit (cosine 1 ≥ 0.85) survives the
`nb.ID == seed.id` guard because the string id does not equal the numeric seed
id, so the outlier is emitted as a "cluster" containing the same asset twice;
and the 5-asset scenario emits five clusters, not two. -/
theorem C4_singleton_cluster_emitted :
    Deduplicate (fun _ => some [⟨"5", 1⟩]) [⟨.num 5, "ph5"⟩]
        = [[⟨.num 5, none⟩, ⟨.str "5", some 1⟩]] ∧
    (Deduplicate searchFive itemsFive).length = 5 := by
  refine ⟨by decide, by decide⟩

/-- C5.  The claim states that the visited-set bookkeeping adds a neighbor
only if it is not the seed and not yet visited, making emitted clusters
pairwise disjoint with no repeated member.  The code violates it: neighbors
are appended without consulting `visited`, neighbor marks are stored under
string ids while seed checks use numeric ids, and the seed's own search hit
passes the id guard — so for a two-asset near-duplicate pair each cluster
contains its seed twice (numeric and string id) and the two clusters share
both assets; the flattened member-id list is far from duplicate-free. -/
theorem C5_clusters_overlap :
    Deduplicate searchPair itemsPair
        = [[⟨.num 1, none⟩, ⟨.str "1", some 1⟩, ⟨.str "2", some (9/10)⟩],
           [⟨.num 2, none⟩, ⟨.str "2", some 1⟩, ⟨.str "1", some (9/10)⟩]] ∧
    ¬ ((Deduplicate searchPair itemsPair).map memberIds).flatten.Nodup := by
  have h : Deduplicate searchPair itemsPair
      = [[⟨.num 1, none⟩, ⟨.str "1", some 1⟩, ⟨.str "2", some (9/10)⟩],
         [⟨.num 2, none⟩, ⟨.str "2", some 1⟩, ⟨.str "1", some (9/10)⟩]] := by
    simp [Deduplicate, bucketize, itemsPair, insertBucket, bucketKey, dedupStep,
      searchPair, goEqStr]
  rw [h]
  refine ⟨rfl, ?_⟩
  simp [memberIds]

/-- C6 counterexample.  The claim states that re-ingesting identical bytes for
the same tenant yields the same content hash (true) and is idempotent under a
defined policy rather than silently creating a second duplicate asset with a
fresh identifier (false).  Replaying the identical ingest request appends a
second point: the index ends with two points, with equal `sha256` payloads
and distinct identifiers. -/
theorem C6_counterexample :
    (IngestImage envOk "u" "b" "k" []).2 = .ok "img1" "h" 1 1 "png" ∧
    (IngestImage envOk2 "u" "b" "k" (IngestImage envOk "u" "b" "k" []).1).2
        = .ok "img2" "h" 1 1 "png" ∧
    ((IngestImage envOk2 "u" "b" "k" (IngestImage envOk "u" "b" "k" []).1).1.map
        Point.id) = [.num 1, .num 2] ∧
    ((IngestImage envOk2 "u" "b" "k" (IngestImage envOk "u" "b" "k" []).1).1.map
        (fun p => lookupPayload p.payload "sha256"))
        = [some (.str "h"), some (.str "h")] := by
  refine ⟨rfl, rfl, by decide, by decide⟩

/-- C6 as amended.  Ingesting identical bytes twice yields the same
content hash (the SHA-256 of the bytes, a pure function of them), but
re-ingestion is not idempotent: a successful ingest unconditionally appends a
point carrying the freshly generated identifiers, with no content-hash
lookup against the existing index — identical bytes silently produce a
second, duplicate indexed asset. -/
theorem C6_reingest_appends_fresh_point
    (env : IngestEnv) (userID bucket key : String) (index : List Point)
    (data : List Nat) (whf : Int × Int × String) (emb : List ℚ)
    (hd : env.download = some data) (hdec : env.decode data = some whf)
    (hemb : env.embed data = some emb) (hup : env.upsertOk = true) :
    IngestImage env userID bucket key index
      = (index ++ [ingestPoint env userID bucket key data whf emb],
         .ok env.freshImageId (env.sha data) whf.1 whf.2.1 whf.2.2) := by
  simp [IngestImage, hd, hdec, hemb, hup]

/-- Witness for the amended C6 at the concrete replayed request. -/
theorem C6_amended_witness :
    IngestImage envOk2 "u" "b" "k"
        [ingestPoint envOk "u" "b" "k" [7] (1, 1, "png") [1]]
      = ([ingestPoint envOk "u" "b" "k" [7] (1, 1, "png") [1],
          ingestPoint envOk2 "u" "b" "k" [7] (1, 1, "png") [1]],
         .ok "img2" "h" 1 1 "png") :=
  C6_reingest_appends_fresh_point envOk2 "u" "b" "k"
    [ingestPoint envOk "u" "b" "k" [7] (1, 1, "png") [1]]
    [7] (1, 1, "png") [1] rfl rfl rfl rfl

/-- C7.  The claim states that the anomaly list is sorted in descending score
order for every tenant and candidate set.  The code never sorts (the sort is
only a comment, handlers.go:675-676): for a two-asset tenant scanned with the
well-matched asset first, the returned scores are `[0.1, 0.6]`, which is not
descending. -/
theorem C7_output_not_sorted :
    ((GetAnomalies searchTwo
        [⟨.num 1, some [1], []⟩, ⟨.num 2, some [2], []⟩]).map
          (fun e => e.anomaly_score)) = [1/10, 3/5] ∧
    sortedDescB ((GetAnomalies searchTwo
        [⟨.num 1, some [1], []⟩, ⟨.num 2, some [2], []⟩]).map
          (fun e => e.anomaly_score)) = false := by
  have h : ((GetAnomalies searchTwo
      [⟨.num 1, some [1], []⟩, ⟨.num 2, some [2], []⟩]).map
        (fun e => e.anomaly_score)) = [1/10, 3/5] := by
    simp [GetAnomalies, nearestScore, nearestOther, goEqStr, searchTwo]
    norm_num
  rw [h]
  refine ⟨rfl, ?_⟩
  simp [sortedDescB]
  norm_num

/-- C8.  If the embedding-service call fails during ingest (after download
and decode succeeded), the whole ingest aborts with a 500 surfaced to the
caller and the vector index is left exactly as it was: no point is upserted. -/
theorem C8_embedding_failure_aborts
    (env : IngestEnv) (userID bucket key : String) (index : List Point)
    (data : List Nat) (whf : Int × Int × String)
    (hd : env.download = some data) (hdec : env.decode data = some whf)
    (hemb : env.embed data = none) :
    IngestImage env userID bucket key index
      = (index, .serverError "failed to get embedding") := by
  simp [IngestImage, hd, hdec, hemb]

/-- Witness for C8 at a concrete failing embedding call over a nonempty
index. -/
theorem C8_witness :
    IngestImage envEmbedFail "u" "b" "k" [⟨.num 9, none, []⟩]
      = ([⟨.num 9, none, []⟩], .serverError "failed to get embedding") :=
  C8_embedding_failure_aborts envEmbedFail "u" "b" "k" [⟨.num 9, none, []⟩]
    [7] (1, 1, "png") rfl rfl rfl

/-- C9.  If the audit-metadata insert fails after the vector-index upsert
succeeded, the ingest still returns the success summary (business id, sha,
dimensions, format) and the upserted point stays in the index: the audit
outcome influences neither component of the result. -/
theorem C9_audit_failure_not_fatal
    (env : IngestEnv) (userID bucket key : String) (index : List Point)
    (data : List Nat) (whf : Int × Int × String) (emb : List ℚ)
    (hd : env.download = some data) (hdec : env.decode data = some whf)
    (hemb : env.embed data = some emb) (hup : env.upsertOk = true)
    (haudit : env.auditOk = false) :
    IngestImage env userID bucket key index
      = (index ++ [ingestPoint env userID bucket key data whf emb],
         .ok env.freshImageId (env.sha data) whf.1 whf.2.1 whf.2.2) := by
  simp [IngestImage, hd, hdec, hemb, hup]

/-- Witness for C9 at a concrete environment whose audit insert fails. -/
theorem C9_witness :
    IngestImage envAuditFail "u" "b" "k" []
      = ([ingestPoint envAuditFail "u" "b" "k" [7] (1, 1, "png") [1]],
         .ok "img1" "h" 1 1 "png") :=
  C9_audit_failure_not_fatal envAuditFail "u" "b" "k" [] [7] (1, 1, "png") [1]
    rfl rfl rfl rfl rfl

/-- C10.  The effective search limit of a JSON `SearchSimilar` request is 10
when the request omits `limit` or gives 0, is capped at 100 for values above
100, passes values in 1..100 through unchanged, and leaves negative values
unnormalized. -/
theorem C10_limit_normalization :
    normalizeLimit 0 = 10 ∧
    (∀ l : Int, 100 < l → normalizeLimit l = 100) ∧
    (∀ l : Int, 1 ≤ l → l ≤ 100 → normalizeLimit l = l) ∧
    (∀ l : Int, l < 0 → normalizeLimit l = l) := by
  refine ⟨by decide, ?_, ?_, ?_⟩ <;>
    · intro l
      intros
      simp only [normalizeLimit, beq_iff_eq]
      split <;> (try split) <;> omega

/-- Witness for C10 at the four representative limits 0, 250, 42 and -3. -/
theorem C10_witness :
    normalizeLimit 0 = 10 ∧ normalizeLimit 250 = 100 ∧
    normalizeLimit 42 = 42 ∧ normalizeLimit (-3) = -3 :=
  ⟨C10_limit_normalization.1,
   C10_limit_normalization.2.1 250 (by decide),
   C10_limit_normalization.2.2.1 42 (by decide) (by decide),
   C10_limit_normalization.2.2.2 (-3) (by decide)⟩
